import Mathlib

/-!
Shallow embedding of the HarvestDawn crop-suitability engine (`api/index.py`).

Numeric environment measures (rainfall, temperature, slope) are embedded as
rationals; Python floats carry exact values along every code path modelled
here, and none of the verified properties depends on rounding.  A pandas row
(`pd.Series` built from a dict record) is embedded as a structure of optional
fields, one per recognised column alias; a column absent from the record is
`none`, and `pd.notna` on a value read through the source's falsy-coalescing
`or` chains is `Option.isSome`.  Human-readable reason/advice strings that
interpolate formatted numbers are embedded as inductive values carrying the
data that the source interpolates, so that which criterion failed, and which
advice band was selected, stay observable.
-/

namespace HarvestDawn

/-- Python truthiness for an optional string field: `None` and `""` are falsy,
so an `a or b` chain skips them. -/
def truthyStr (o : Option String) : Option String :=
  o.bind fun s => if s = "" then none else some s

/-- Python truthiness for an optional numeric field: `None` and `0` are falsy,
so an `a or b` chain skips them. -/
def truthyQ (o : Option ℚ) : Option ℚ :=
  o.bind fun x => if x = 0 then none else some x

/-- One row of the crop table (`pd.Series` over a record dict), with one
optional field per column alias the source reads (English and Thai). -/
structure Row where
  crop_name : Option String := none
  name : Option String := none
  crop_name_th : Option String := none
  soil_type : Option String := none
  soil_type_th : Option String := none
  min_rain_mm : Option ℚ := none
  min_rain_th : Option ℚ := none
  max_rain_mm : Option ℚ := none
  max_rain_th : Option ℚ := none
  min_temp_c : Option ℚ := none
  min_temp_th : Option ℚ := none
  max_temp_c : Option ℚ := none
  max_temp_th : Option ℚ := none
  slope_max_deg : Option ℚ := none
  slope_max_th : Option ℚ := none
  market_trend : Option String := none
  trend : Option String := none
  trend_th : Option String := none
deriving Repr, DecidableEq

/-- The simulated environment profile returned by `mock_env_from_polygon`. -/
structure Env where
  soil_type : String
  avg_rainfall_mm : ℚ
  avg_temp_celsius : ℚ
  slope_degree : ℚ
  seed : ℕ
deriving Repr, DecidableEq

/-- One entry of the `reasons` list built by `_deterministic_score`.  The
source appends a Thai f-string per failed criterion; the embedding keeps the
criterion tag and the interpolated data. -/
inductive Reason where
  | soil (env_soil wanted : String)
  | rain (value lo hi : ℚ)
  | temp (value lo hi : ℚ)
  | slope (value max_allowed : ℚ)
deriving Repr, DecidableEq

/-- The `# Soil` block of `_deterministic_score`: weight 1; requirement read
as `row.get("soil_type") or row.get("ชนิดดิน") or ""`; pass when the
requirement is falsy or the stripped strings match. -/
def soil_check (row : Row) (env : Env) : ℕ × List Reason :=
  let wanted_soil := ((truthyStr row.soil_type).or (truthyStr row.soil_type_th)).getD ""
  if wanted_soil ≠ "" then
    if env.soil_type.trim = wanted_soil.trim then (1, [])
    else (0, [Reason.soil env.soil_type wanted_soil])
  else (1, [])

/-- The `# Rain` block of `_deterministic_score`: weight 2; bounds read as
`row.get("min_rain_mm") or row.get("ฝนต่ำสุด") or None` (same for max); scored
only when both bounds are non-null, inclusive range check. -/
def rain_check (row : Row) (env : Env) : ℕ × List Reason :=
  let min_rain := (truthyQ row.min_rain_mm).or (truthyQ row.min_rain_th)
  let max_rain := (truthyQ row.max_rain_mm).or (truthyQ row.max_rain_th)
  let rain := env.avg_rainfall_mm
  match min_rain, max_rain with
  | some lo, some hi =>
    if lo ≤ rain ∧ rain ≤ hi then (2, []) else (0, [Reason.rain rain lo hi])
  | _, _ => (2, [])

/-- The `# Temperature` block of `_deterministic_score`: weight 1; bounds read
with the same falsy `or` chains; scored only when both bounds are non-null. -/
def temp_check (row : Row) (env : Env) : ℕ × List Reason :=
  let min_temp := (truthyQ row.min_temp_c).or (truthyQ row.min_temp_th)
  let max_temp := (truthyQ row.max_temp_c).or (truthyQ row.max_temp_th)
  let temp := env.avg_temp_celsius
  match min_temp, max_temp with
  | some lo, some hi =>
    if lo ≤ temp ∧ temp ≤ hi then (1, []) else (0, [Reason.temp temp lo hi])
  | _, _ => (1, [])

/-- The `# Slope` block of `_deterministic_score`: weight 1; bound read as
`row.get("slope_max_deg") or row.get("ความลาดสูงสุด") or None`. -/
def slope_check (row : Row) (env : Env) : ℕ × List Reason :=
  let slope_max := (truthyQ row.slope_max_deg).or (truthyQ row.slope_max_th)
  let slope := env.slope_degree
  match slope_max with
  | some m => if slope ≤ m then (1, []) else (0, [Reason.slope slope m])
  | none => (1, [])

/-- `_deterministic_score(row, env)`: the four criterion blocks run in source
order (soil, rain, temperature, slope), each adding its weight on a pass and
appending one reason on a failure. -/
def _deterministic_score (row : Row) (env : Env) : ℕ × List Reason :=
  let s := soil_check row env
  let r := rain_check row env
  let t := temp_check row env
  let sl := slope_check row env
  (s.1 + r.1 + t.1 + sl.1, s.2 ++ r.2 ++ t.2 ++ sl.2)

/-- Deterministic stream of raw draws standing in for CPython's
`random.Random(seed)` Mersenne-Twister stream, which is external to the
repository.  The only property of it the source relies on is that the whole
stream is a pure function of the seed; the mixing formula is an arbitrary
concrete stand-in. -/
def mtMix (seed n : ℕ) : ℕ :=
  ((seed + n + 1) * 2654435761) % 4294967296

/-- A random generator: a fixed stream of raw draws plus a position.  Each
primitive consumption of randomness in the source (one `random()`, one
`choice`, one `choices`) advances the position by one. -/
structure Rng where
  stream : ℕ → ℕ
  pos : ℕ

/-- Consume one raw draw. -/
def Rng.next (r : Rng) : ℕ × Rng :=
  (r.stream r.pos, { r with pos := r.pos + 1 })

/-- `random.Random(seed)`: the generator whose stream is determined by the
seed. -/
def Rng.fromSeed (seed : ℕ) : Rng :=
  ⟨mtMix seed, 0⟩

/-- Deterministic stand-in for CPython's salted string hash `hash(s)`, which
is external to the repository; within one interpreter process it is a fixed
pure function of the string, which is all the source relies on. -/
def pyHash (s : String) : ℕ :=
  s.foldl (fun h c => (h * 31 + c.toNat) % 18446744073709551616) 7

/-- `rng.random()`: a raw draw mapped into the unit interval (CPython uses a
53-bit numerator over 2^53). -/
def unitQ (u : ℕ) : ℚ :=
  ((u % 9007199254740992 : ℕ) : ℚ) / 9007199254740992

/-- `rng.choice(pool)`: a raw draw selects one element of a nonempty pool. -/
def pyChoice (pool : List α) (u : ℕ) (default : α) : α :=
  pool.getD (u % pool.length) default

/-- Index selection of `rng.choices(candidates, weights=weights, k=1)`: the
residue of a raw draw below the total weight is located in the cumulative
weight table.  `pickIndex ws r` is the first index whose cumulative weight
exceeds `r`. -/
def pickIndex : List ℕ → ℕ → ℕ
  | [], _ => 0
  | w :: ws, r => if r < w then 0 else 1 + pickIndex ws (r - w)

/-- `rng.choices(candidates, weights=weights, k=1)[0]`. -/
def weightedChoice (candidates : List ℤ) (weights : List ℕ) (u : ℕ) : ℤ :=
  candidates.getD (pickIndex weights (u % weights.sum)) 0

/-- `MARKET_TRENDS` (module constant). -/
def MARKET_TRENDS : List String :=
  ["คงที่", "เพิ่มขึ้น", "เพิ่มขึ้นเล็กน้อย", "ผันผวน", "ปรับตัวลดลงเล็กน้อย"]

/-- `POSITIVE_TIPS` (module constant). -/
def POSITIVE_TIPS : List String :=
  ["ปริมาณน้ำฝนสอดคล้องกับความต้องการ เหมาะต่อการงอกและระยะเจริญเติบโต",
   "อุณหภูมิเฉลี่ยอยู่ในช่วงที่พืชปรับตัวได้ดี ลดความเสี่ยงต่อโรค",
   "ลาดชันไม่มาก เหมาะต่อการระบายน้ำและการเข้าถึงด้วยเครื่องจักร",
   "ชนิดดินเอื้อต่อการระบายน้ำและการอุ้มน้ำที่สมดุล",
   "วางแผนปลูกช่วงต้นฤดูฝนเพื่อลดต้นทุนการให้น้ำ"]

/-- `IMPROVEMENT_TIPS` (module constant). -/
def IMPROVEMENT_TIPS : List String :=
  ["ปรับปรุงดินด้วยปุ๋ยคอก/ปุ๋ยหมักเพื่อเพิ่มอินทรียวัตถุ",
   "จัดร่องระบายน้ำหรือคลุมดิน ลดการชะล้างหน้าดิน",
   "เลือกพันธุ์ทนแล้ง/ทนน้ำตามสภาพพื้นที่",
   "ปรับตารางให้น้ำแบบสั้นถี่ในระยะสำคัญ",
   "ปลูกพืชคลุมดินเพื่อรักษาความชื้น"]

/-- `mock_env_from_polygon(geojson_str)`: seed from the (masked) hash of the
descriptor, with `None` coalesced to `""`; then one `choice` over the four
soil types and three `random()` draws scaled into the documented ranges. -/
def mock_env_from_polygon (geojson_str : Option String) : Env :=
  let seed := pyHash (geojson_str.getD "") % 4294967296
  let rng := Rng.fromSeed seed
  let soil_types : List String := ["ดินร่วน", "ดินร่วนปนทราย", "ดินเหนียว", "ดินทราย"]
  let (u0, rng) := rng.next
  let (u1, rng) := rng.next
  let (u2, rng) := rng.next
  let (u3, _) := rng.next
  { soil_type := pyChoice soil_types u0 ""
    avg_rainfall_mm := 900 + unitQ u1 * 1600
    avg_temp_celsius := 22 + unitQ u2 * 12
    slope_degree := unitQ u3 * 15
    seed := seed }

/-- `_choose_trend(existing, rng)`: the weighted pool is drawn when `existing`
is falsy, strips to empty, or with probability 0.6; Python's short-circuit
means `rng.random()` is only consumed when `existing` is a nonempty string. -/
def _choose_trend (existing : Option String) (rng : Rng) : String × Rng :=
  let pool : List String :=
    ["คงที่", "คงที่",
     "เพิ่มขึ้น", "เพิ่มขึ้น", "เพิ่มขึ้น",
     "เพิ่มขึ้นเล็กน้อย", "เพิ่มขึ้นเล็กน้อย",
     "ผันผวน", "ผันผวน",
     "ปรับตัวลดลงเล็กน้อย"]
  match existing with
  | none =>
    let (u, rng) := rng.next
    (pyChoice pool u "", rng)
  | some s =>
    if s.trim = "" then
      let (u, rng) := rng.next
      (pyChoice pool u "", rng)
    else
      let (u, rng) := rng.next
      if unitQ u < 3 / 5 then
        let (u2, rng) := rng.next
        (pyChoice pool u2 "", rng)
      else (s, rng)

/-- Advice value built by `_gen_advice_by_band`.  The source returns Thai
strings assembled with `|` separators and number interpolation; the embedding
keeps the selected band and the chosen components. -/
inductive Advice where
  | band_high (tip : String) (extra_idx : ℕ)
  | band_mid (seg2 : String)
  | band_low (picked : List Reason) (fallback_tip : Option String) (improve : String)
deriving Repr, DecidableEq

/-- `_gen_advice_by_band(env, reasons, score, rng)`: high band (score ≥ 5)
draws a positive tip and one of four context facts; mid band (3–4) draws one
positive tip after a fixed hedge; low band (≤ 2) copies the accumulated
reasons (drawing a replacement improvement tip when they are empty) and draws
one improvement tip. -/
def _gen_advice_by_band (reasons : List Reason) (score : ℤ) (rng : Rng) :
    Advice × Rng :=
  if score ≥ 5 then
    let (u1, rng) := rng.next
    let (u2, rng) := rng.next
    (Advice.band_high (pyChoice POSITIVE_TIPS u1 "") (u2 % 4), rng)
  else if 3 ≤ score ∧ score ≤ 4 then
    let (u, rng) := rng.next
    (Advice.band_mid (pyChoice POSITIVE_TIPS u ""), rng)
  else
    match reasons with
    | [] =>
      let (u1, rng) := rng.next
      let (u2, rng) := rng.next
      (Advice.band_low [] (some (pyChoice IMPROVEMENT_TIPS u1 "")) (pyChoice IMPROVEMENT_TIPS u2 ""), rng)
    | picked =>
      let (u, rng) := rng.next
      (Advice.band_low picked none (pyChoice IMPROVEMENT_TIPS u ""), rng)

/-- One record of the returned recommendation list (the dict literal at the
end of `score_row`). -/
structure ScoredRec where
  crop_name : String
  market_trend : String
  suitability_score : ℤ
  max_score : ℤ
  reasons_for_low_score : List Reason
  advice : Advice
deriving Repr, DecidableEq

/-- Body of `score_row` after `rng = random.Random(local_seed)`, with the
generator passed explicitly: base score, jitter over the clamped candidate
list with weights `[1, 3, 4, 2]`, weighted trend, banded advice. -/
def score_row_core (row : Row) (env : Env) (name : String) (rng : Rng) : ScoredRec :=
  let base := _deterministic_score row env
  let base_score : ℤ := (base.1 : ℤ)
  let candidates : List ℤ :=
    [max 0 (base_score - 2), max 0 (base_score - 1), base_score, min 5 (base_score + 1)]
  let weights : List ℕ := [1, 3, 4, 2]
  let (u, rng) := rng.next
  let final_score := weightedChoice candidates weights u
  let trend_raw := ((truthyStr row.market_trend).or (truthyStr row.trend)).or (truthyStr row.trend_th)
  let (trend, rng) := _choose_trend trend_raw rng
  let (advice, _) := _gen_advice_by_band base.2 final_score rng
  { crop_name := name
    market_trend := trend
    suitability_score := final_score
    max_score := 5
    reasons_for_low_score := base.2
    advice := advice }

/-- `score_row(row, env)`: crop name with falsy fallbacks, per-(polygon, crop)
seed `(env.seed XOR (hash(name) AND 0xFFFFFFFF)) AND 0xFFFFFFFF`, then the
seeded body. -/
def score_row (row : Row) (env : Env) : ScoredRec :=
  let name := (((truthyStr row.crop_name).or (truthyStr row.name)).or (truthyStr row.crop_name_th)).getD "Unknown Crop"
  let local_seed := (Nat.xor env.seed (pyHash name % 4294967296)) % 4294967296
  score_row_core row env name (Rng.fromSeed local_seed)

/-- The five hard-coded fallback rows of `build_recommendations`, used when
`CROP_DB` is empty. -/
def fallback_rows : List Row :=
  [{ crop_name := some "ข้าว", soil_type := some "ดินร่วน",
     min_rain_mm := some 1200, max_rain_mm := some 2000,
     min_temp_c := some 20, max_temp_c := some 35, slope_max_deg := some 5 },
   { crop_name := some "มันสำปะหลัง", soil_type := some "ดินร่วนปนทราย",
     min_rain_mm := some 1000, max_rain_mm := some 1500,
     min_temp_c := some 22, max_temp_c := some 35, slope_max_deg := some 12 },
   { crop_name := some "อ้อย", soil_type := some "ดินร่วน",
     min_rain_mm := some 1100, max_rain_mm := some 1800,
     min_temp_c := some 23, max_temp_c := some 34, slope_max_deg := some 10 },
   { crop_name := some "ข้าวโพดเลี้ยงสัตว์", soil_type := some "ดินร่วนปนทราย",
     min_rain_mm := some 1000, max_rain_mm := some 1800,
     min_temp_c := some 20, max_temp_c := some 35, slope_max_deg := some 10 },
   { crop_name := some "ยางพารา", soil_type := some "ดินร่วน",
     min_rain_mm := some 1600, max_rain_mm := some 2500,
     min_temp_c := some 23, max_temp_c := some 34, slope_max_deg := some 12 }]

/-- `_load_crop_database(csv_path)`: the filesystem read either yields a
parsed, column-normalised table or raises (missing file, parse error); every
exception is caught and an empty DataFrame returned.  The embedding takes the
outcome of the external read as an `Option`. -/
def _load_crop_database (source : Option (List Row)) : List Row :=
  match source with
  | some df => df
  | none => []

/-- `build_recommendations(env)` with the module-level `CROP_DB` passed
explicitly: substitute the fallback rows when the table is empty, score every
row, and stably sort by `suitability_score` descending (Python `list.sort`
with `reverse=True` is stable; `List.mergeSort` with the reversed comparison
is its embedding). -/
def build_recommendations (crop_db : List Row) (env : Env) : List ScoredRec :=
  let rows := if crop_db.isEmpty then fallback_rows else crop_db
  let scored := rows.map (fun r => score_row r env)
  scored.mergeSort (fun a b => b.suitability_score ≤ a.suitability_score)

/-- The POST branch of the `/` route: simulate the environment from the raw
polygon descriptor, then build the ranked recommendations. -/
def recommend_for_polygon (crop_db : List Row) (polygon : Option String) :
    Env × List ScoredRec :=
  let env := mock_env_from_polygon polygon
  (env, build_recommendations crop_db env)

/-! Helper lemmas. -/

/-- A fixed environment used to instantiate hypotheses at concrete inputs. -/
def sample_env : Env :=
  { soil_type := "ดินร่วน", avg_rainfall_mm := 1500, avg_temp_celsius := 25,
    slope_degree := 3, seed := 42 }

/-- `sample_env` with the rainfall moved outside the 1200–2000 window. -/
def sample_env_dry : Env :=
  { soil_type := "ดินร่วน", avg_rainfall_mm := 900, avg_temp_celsius := 25,
    slope_degree := 3, seed := 42 }

/-- A crop row whose requirement fields are present but Python-falsy. -/
def sample_row_falsy : Row :=
  { soil_type := some "", min_temp_c := some 0, slope_max_deg := some 0 }

/-- A fixed draw stream used to instantiate hypotheses at a concrete input. -/
def sample_rng : Rng :=
  ⟨fun _ => 0, 0⟩

theorem soil_check_eq (row : Row) (env : Env) :
    soil_check row env = (1, []) ∨
      ∃ a b, soil_check row env = (0, [Reason.soil a b]) := by
  unfold soil_check
  dsimp only
  split
  · split
    · exact Or.inl rfl
    · exact Or.inr ⟨_, _, rfl⟩
  · exact Or.inl rfl

theorem rain_check_eq (row : Row) (env : Env) :
    rain_check row env = (2, []) ∨
      ∃ v lo hi, rain_check row env = (0, [Reason.rain v lo hi]) := by
  unfold rain_check
  dsimp only
  split
  · split
    · exact Or.inl rfl
    · exact Or.inr ⟨_, _, _, rfl⟩
  · exact Or.inl rfl

theorem temp_check_eq (row : Row) (env : Env) :
    temp_check row env = (1, []) ∨
      ∃ v lo hi, temp_check row env = (0, [Reason.temp v lo hi]) := by
  unfold temp_check
  dsimp only
  split
  · split
    · exact Or.inl rfl
    · exact Or.inr ⟨_, _, _, rfl⟩
  · exact Or.inl rfl

theorem slope_check_eq (row : Row) (env : Env) :
    slope_check row env = (1, []) ∨
      ∃ v m, slope_check row env = (0, [Reason.slope v m]) := by
  unfold slope_check
  dsimp only
  split
  · split
    · exact Or.inl rfl
    · exact Or.inr ⟨_, _, rfl⟩
  · exact Or.inl rfl

theorem deterministic_score_eq (row : Row) (env : Env) :
    _deterministic_score row env =
      ((soil_check row env).1 + (rain_check row env).1 + (temp_check row env).1 +
        (slope_check row env).1,
       (soil_check row env).2 ++ (rain_check row env).2 ++ (temp_check row env).2 ++
        (slope_check row env).2) := rfl

theorem score_le_five (row : Row) (env : Env) :
    (_deterministic_score row env).1 ≤ 5 := by
  rw [deterministic_score_eq]
  rcases soil_check_eq row env with h1 | ⟨a, b, h1⟩ <;>
    rcases rain_check_eq row env with h2 | ⟨v2, l2, u2, h2⟩ <;>
    rcases temp_check_eq row env with h3 | ⟨v3, l3, u3, h3⟩ <;>
    rcases slope_check_eq row env with h4 | ⟨v4, m4, h4⟩ <;>
    simp [h1, h2, h3, h4]

theorem reasons_nil_iff (row : Row) (env : Env) :
    (_deterministic_score row env).2 = [] ↔ (_deterministic_score row env).1 = 5 := by
  rw [deterministic_score_eq]
  rcases soil_check_eq row env with h1 | ⟨a, b, h1⟩ <;>
    rcases rain_check_eq row env with h2 | ⟨v2, l2, u2, h2⟩ <;>
    rcases temp_check_eq row env with h3 | ⟨v3, l3, u3, h3⟩ <;>
    rcases slope_check_eq row env with h4 | ⟨v4, m4, h4⟩ <;>
    simp [h1, h2, h3, h4]

theorem getD_mem_of_lt {α : Type} {l : List α} {n : ℕ} (d : α) (h : n < l.length) :
    l.getD n d ∈ l := by
  rw [List.getD_eq_getElem?_getD, List.getElem?_eq_getElem h, Option.getD_some]
  exact List.getElem_mem h

theorem pickIndex_lt_four (r : ℕ) (h : r < 10) : pickIndex [1, 3, 4, 2] r < 4 := by
  interval_cases r <;> decide

theorem score_row_core_score (row : Row) (env : Env) (name : String) (rng : Rng) :
    (score_row_core row env name rng).suitability_score =
      weightedChoice
        [max 0 (((_deterministic_score row env).1 : ℤ) - 2),
         max 0 (((_deterministic_score row env).1 : ℤ) - 1),
         ((_deterministic_score row env).1 : ℤ),
         min 5 (((_deterministic_score row env).1 : ℤ) + 1)]
        [1, 3, 4, 2] (rng.stream rng.pos) := rfl

theorem score_row_core_reasons (row : Row) (env : Env) (name : String) (rng : Rng) :
    (score_row_core row env name rng).reasons_for_low_score =
      (_deterministic_score row env).2 := rfl

theorem score_row_core_advice (row : Row) (env : Env) (name : String) (rng : Rng) :
    ∃ rng2, (score_row_core row env name rng).advice =
      (_gen_advice_by_band (_deterministic_score row env).2
        (score_row_core row env name rng).suitability_score rng2).1 :=
  ⟨_, rfl⟩

theorem weightedChoice_mem {candidates : List ℤ} (u : ℕ)
    (h : pickIndex [1, 3, 4, 2] (u % 10) < candidates.length) :
    weightedChoice candidates [1, 3, 4, 2] u ∈ candidates := by
  unfold weightedChoice
  have hsum : ([1, 3, 4, 2] : List ℕ).sum = 10 := rfl
  rw [hsum]
  exact getD_mem_of_lt 0 h

theorem score_row_core_score_mem (row : Row) (env : Env) (name : String) (rng : Rng) :
    (score_row_core row env name rng).suitability_score ∈
      [max 0 (((_deterministic_score row env).1 : ℤ) - 2),
       max 0 (((_deterministic_score row env).1 : ℤ) - 1),
       ((_deterministic_score row env).1 : ℤ),
       min 5 (((_deterministic_score row env).1 : ℤ) + 1)] := by
  rw [score_row_core_score]
  exact weightedChoice_mem _ (by
    have := pickIndex_lt_four (rng.stream rng.pos % 10) (Nat.mod_lt _ (by norm_num))
    simpa using this)

theorem jitter_candidate_bounds {b x : ℤ} (hb0 : 0 ≤ b) (hb5 : b ≤ 5)
    (hx : x ∈ [max 0 (b - 2), max 0 (b - 1), b, min 5 (b + 1)]) :
    0 ≤ x ∧ x ≤ 5 := by
  simp only [List.mem_cons, List.not_mem_nil, or_false] at hx
  rcases hx with h | h | h | h <;> subst h <;> constructor <;> omega

theorem score_row_core_score_bounds (row : Row) (env : Env) (name : String) (rng : Rng) :
    0 ≤ (score_row_core row env name rng).suitability_score ∧
      (score_row_core row env name rng).suitability_score ≤ 5 := by
  refine jitter_candidate_bounds (b := ((_deterministic_score row env).1 : ℤ)) ?_ ?_
    (score_row_core_score_mem row env name rng)
  · positivity
  · exact_mod_cast score_le_five row env

theorem score_row_eq_core (row : Row) (env : Env) :
    score_row row env =
      score_row_core row env
        ((((truthyStr row.crop_name).or (truthyStr row.name)).or
          (truthyStr row.crop_name_th)).getD "Unknown Crop")
        (Rng.fromSeed
          ((Nat.xor env.seed
            (pyHash ((((truthyStr row.crop_name).or (truthyStr row.name)).or
              (truthyStr row.crop_name_th)).getD "Unknown Crop") % 4294967296)) % 4294967296)) := rfl

theorem gen_advice_not_low (reasons : List Reason) (score : ℤ) (rng : Rng)
    (h : 3 ≤ score) :
    ∀ p f i, (_gen_advice_by_band reasons score rng).1 ≠ Advice.band_low p f i := by
  intro p f i
  unfold _gen_advice_by_band
  dsimp only
  split
  · simp [Rng.next]
  · split
    · simp [Rng.next]
    · omega

theorem unitQ_bounds (u : ℕ) : 0 ≤ unitQ u ∧ unitQ u < 1 := by
  unfold unitQ
  constructor
  · positivity
  · rw [div_lt_one (by norm_num)]
    exact_mod_cast Nat.mod_lt _ (by norm_num)

theorem build_recommendations_eq (db : List Row) (env : Env) :
    build_recommendations db env =
      ((if db.isEmpty then fallback_rows else db).map
        (fun r => score_row r env)).mergeSort
        (fun a b => decide (b.suitability_score ≤ a.suitability_score)) := rfl

theorem recLe_trans : ∀ a b c : ScoredRec,
    decide (b.suitability_score ≤ a.suitability_score) = true →
    decide (c.suitability_score ≤ b.suitability_score) = true →
    decide (c.suitability_score ≤ a.suitability_score) = true := by
  intro a b c hab hbc
  simp only [decide_eq_true_eq] at *
  omega

theorem recLe_total : ∀ a b : ScoredRec,
    (decide (b.suitability_score ≤ a.suitability_score) ||
      decide (a.suitability_score ≤ b.suitability_score)) = true := by
  intro a b
  simp only [Bool.or_eq_true, decide_eq_true_eq]
  omega

theorem build_recommendations_perm (db : List Row) (env : Env) :
    (build_recommendations db env).Perm
      ((if db.isEmpty then fallback_rows else db).map (fun r => score_row r env)) := by
  rw [build_recommendations_eq]
  exact List.mergeSort_perm _ _

theorem build_recommendations_sorted (db : List Row) (env : Env) :
    (build_recommendations db env).Pairwise
      (fun a b => b.suitability_score ≤ a.suitability_score) := by
  rw [build_recommendations_eq]
  have h := @List.sorted_mergeSort ScoredRec
    (fun a b => decide (b.suitability_score ≤ a.suitability_score))
    recLe_trans recLe_total
    ((if db.isEmpty then fallback_rows else db).map (fun r => score_row r env))
  exact h.imp (fun hab => of_decide_eq_true hab)

theorem build_recommendations_stable (db : List Row) (env : Env)
    {c : List ScoredRec}
    (hc : c.Pairwise (fun a b => b.suitability_score ≤ a.suitability_score))
    (hsub : List.Sublist c ((if db.isEmpty then fallback_rows else db).map (fun r => score_row r env))) :
    List.Sublist c (build_recommendations db env) := by
  rw [build_recommendations_eq]
  exact List.sublist_mergeSort recLe_trans recLe_total
    (hc.imp (fun hab => decide_eq_true hab)) hsub

theorem build_recommendations_mem_bounds (db : List Row) (env : Env)
    {rec : ScoredRec} (h : rec ∈ build_recommendations db env) :
    0 ≤ rec.suitability_score ∧ rec.suitability_score ≤ 5 := by
  have hm := (build_recommendations_perm db env).mem_iff.mp h
  rcases List.mem_map.mp hm with ⟨r, _, rfl⟩
  rw [score_row_eq_core]
  exact score_row_core_score_bounds _ _ _ _

/-! Claim theorems. -/

/-- Claim C1: for every crop row and every environment profile the
deterministic base score is an integer in [0, 5]; each of the four criteria
contributes either 0 or its full weight (soil 1, rainfall 2, temperature 1,
slope 1), the base score is their sum, and the weights sum to 5 = max_score. -/
theorem claim_C1 (row : Row) (env : Env) :
    ((soil_check row env).1 = 0 ∨ (soil_check row env).1 = 1) ∧
    ((rain_check row env).1 = 0 ∨ (rain_check row env).1 = 2) ∧
    ((temp_check row env).1 = 0 ∨ (temp_check row env).1 = 1) ∧
    ((slope_check row env).1 = 0 ∨ (slope_check row env).1 = 1) ∧
    (_deterministic_score row env).1 =
      (soil_check row env).1 + (rain_check row env).1 + (temp_check row env).1 +
        (slope_check row env).1 ∧
    1 + 2 + 1 + 1 = 5 ∧
    (_deterministic_score row env).1 ≤ 5 := by
  refine ⟨?_, ?_, ?_, ?_, rfl, rfl, score_le_five row env⟩
  · rcases soil_check_eq row env with h | ⟨a, b, h⟩ <;> simp [h]
  · rcases rain_check_eq row env with h | ⟨v, lo, hi, h⟩ <;> simp [h]
  · rcases temp_check_eq row env with h | ⟨v, lo, hi, h⟩ <;> simp [h]
  · rcases slope_check_eq row env with h | ⟨v, m, h⟩ <;> simp [h]

/-- Claim C2: the reasons list of the criterion scorer is empty iff every
scored criterion passed (base score = 5), and the reasons field the
variability layer reports is exactly the deterministic one, for every jitter
draw stream. -/
theorem claim_C2 (row : Row) (env : Env) (name : String) (rng : Rng) :
    ((_deterministic_score row env).2 = [] ↔ (_deterministic_score row env).1 = 5) ∧
    (score_row_core row env name rng).reasons_for_low_score =
      (_deterministic_score row env).2 ∧
    (score_row row env).reasons_for_low_score = (_deterministic_score row env).2 :=
  ⟨reasons_nil_iff row env, score_row_core_reasons row env name rng, rfl⟩

/-- Claim C3: a requirement field left unset (both column aliases absent)
makes its criterion contribute its full weight and never appear in the
reasons list, for every environment profile. -/
theorem claim_C3 (row : Row) (env : Env) :
    (row.soil_type = none → row.soil_type_th = none →
      soil_check row env = (1, []) ∧
        ∀ a b, Reason.soil a b ∉ (_deterministic_score row env).2) ∧
    (row.min_rain_mm = none → row.min_rain_th = none → row.max_rain_mm = none →
      row.max_rain_th = none →
      rain_check row env = (2, []) ∧
        ∀ v lo hi, Reason.rain v lo hi ∉ (_deterministic_score row env).2) ∧
    (row.min_temp_c = none → row.min_temp_th = none → row.max_temp_c = none →
      row.max_temp_th = none →
      temp_check row env = (1, []) ∧
        ∀ v lo hi, Reason.temp v lo hi ∉ (_deterministic_score row env).2) ∧
    (row.slope_max_deg = none → row.slope_max_th = none →
      slope_check row env = (1, []) ∧
        ∀ v m, Reason.slope v m ∉ (_deterministic_score row env).2) := by
  refine ⟨?_, ?_, ?_, ?_⟩
  · intro h1 h2
    have hs : soil_check row env = (1, []) := by simp [soil_check, truthyStr, h1, h2]
    refine ⟨hs, fun a b => ?_⟩
    rw [deterministic_score_eq]
    rcases rain_check_eq row env with h3 | ⟨v3, l3, u3, h3⟩ <;>
      rcases temp_check_eq row env with h4 | ⟨v4, l4, u4, h4⟩ <;>
      rcases slope_check_eq row env with h5 | ⟨v5, m5, h5⟩ <;>
      simp [hs, h3, h4, h5]
  · intro h1 h2 h3 h4
    have hr : rain_check row env = (2, []) := by simp [rain_check, truthyQ, h1, h2, h3, h4]
    refine ⟨hr, fun v lo hi => ?_⟩
    rw [deterministic_score_eq]
    rcases soil_check_eq row env with h5 | ⟨a5, b5, h5⟩ <;>
      rcases temp_check_eq row env with h6 | ⟨v6, l6, u6, h6⟩ <;>
      rcases slope_check_eq row env with h7 | ⟨v7, m7, h7⟩ <;>
      simp [hr, h5, h6, h7]
  · intro h1 h2 h3 h4
    have ht : temp_check row env = (1, []) := by simp [temp_check, truthyQ, h1, h2, h3, h4]
    refine ⟨ht, fun v lo hi => ?_⟩
    rw [deterministic_score_eq]
    rcases soil_check_eq row env with h5 | ⟨a5, b5, h5⟩ <;>
      rcases rain_check_eq row env with h6 | ⟨v6, l6, u6, h6⟩ <;>
      rcases slope_check_eq row env with h7 | ⟨v7, m7, h7⟩ <;>
      simp [ht, h5, h6, h7]
  · intro h1 h2
    have hl : slope_check row env = (1, []) := by simp [slope_check, truthyQ, h1, h2]
    refine ⟨hl, fun v m => ?_⟩
    rw [deterministic_score_eq]
    rcases soil_check_eq row env with h5 | ⟨a5, b5, h5⟩ <;>
      rcases rain_check_eq row env with h6 | ⟨v6, l6, u6, h6⟩ <;>
      rcases temp_check_eq row env with h7 | ⟨v7, l7, u7, h7⟩ <;>
      simp [hl, h5, h6, h7]

/-- Witness for C3 at the all-fields-absent row and a concrete profile. -/
theorem claim_C3_witness :
    soil_check {} sample_env = (1, []) ∧ rain_check {} sample_env = (2, []) ∧
      temp_check {} sample_env = (1, []) ∧ slope_check {} sample_env = (1, []) :=
  ⟨((claim_C3 {} sample_env).1 rfl rfl).1,
   ((claim_C3 {} sample_env).2.1 rfl rfl rfl rfl).1,
   ((claim_C3 {} sample_env).2.2.1 rfl rfl rfl rfl).1,
   ((claim_C3 {} sample_env).2.2.2 rfl rfl).1⟩

/-- Claim C4: the environment simulator and the full pipeline are
deterministic — two runs on the identical descriptor (and crop table) agree —
and both factor through the seed derived from the descriptor's hash, with
`None` coalesced to the empty string. -/
theorem claim_C4 :
    (∀ d : Option String, mock_env_from_polygon d = mock_env_from_polygon d) ∧
    (∀ (db : List Row) (d : Option String),
      recommend_for_polygon db d = recommend_for_polygon db d) ∧
    (∀ d₁ d₂ : Option String, pyHash (d₁.getD "") = pyHash (d₂.getD "") →
      mock_env_from_polygon d₁ = mock_env_from_polygon d₂) ∧
    (∀ (db : List Row) (d₁ d₂ : Option String),
      pyHash (d₁.getD "") = pyHash (d₂.getD "") →
      recommend_for_polygon db d₁ = recommend_for_polygon db d₂) := by
  have hmock : ∀ d₁ d₂ : Option String, pyHash (d₁.getD "") = pyHash (d₂.getD "") →
      mock_env_from_polygon d₁ = mock_env_from_polygon d₂ := by
    intro d₁ d₂ h
    unfold mock_env_from_polygon
    rw [h]
  refine ⟨fun d => rfl, fun db d => rfl, hmock, ?_⟩
  intro db d₁ d₂ h
  unfold recommend_for_polygon
  rw [hmock d₁ d₂ h]

/-- Witness for C4: the absent descriptor and the empty-string descriptor
share a hash, hence a profile and a ranked output. -/
theorem claim_C4_witness :
    mock_env_from_polygon none = mock_env_from_polygon (some "") ∧
    recommend_for_polygon [] none = recommend_for_polygon [] (some "") :=
  ⟨claim_C4.2.2.1 none (some "") rfl, claim_C4.2.2.2 [] none (some "") rfl⟩

/-- Claim C5: for every crop row, environment profile and draw stream the
final jittered score lies in the candidate list [max 0 (base−2), max 0
(base−1), base, min 5 (base+1)], the weights 1:3:4:2 are realised as the
counts of raw residues selecting each candidate index, and the final score is
always within [0, 5]. -/
theorem claim_C5 (row : Row) (env : Env) (name : String) (rng : Rng) :
    (score_row_core row env name rng).suitability_score ∈
      [max 0 (((_deterministic_score row env).1 : ℤ) - 2),
       max 0 (((_deterministic_score row env).1 : ℤ) - 1),
       ((_deterministic_score row env).1 : ℤ),
       min 5 (((_deterministic_score row env).1 : ℤ) + 1)] ∧
    0 ≤ (score_row_core row env name rng).suitability_score ∧
    (score_row_core row env name rng).suitability_score ≤ 5 ∧
    0 ≤ (score_row row env).suitability_score ∧
    (score_row row env).suitability_score ≤ 5 ∧
    ((Finset.range 10).filter (fun r => pickIndex [1, 3, 4, 2] r = 0)).card = 1 ∧
    ((Finset.range 10).filter (fun r => pickIndex [1, 3, 4, 2] r = 1)).card = 3 ∧
    ((Finset.range 10).filter (fun r => pickIndex [1, 3, 4, 2] r = 2)).card = 4 ∧
    ((Finset.range 10).filter (fun r => pickIndex [1, 3, 4, 2] r = 3)).card = 2 := by
  refine ⟨score_row_core_score_mem row env name rng,
    (score_row_core_score_bounds row env name rng).1,
    (score_row_core_score_bounds row env name rng).2, ?_, ?_,
    by decide, by decide, by decide, by decide⟩
  · rw [score_row_eq_core]
    exact (score_row_core_score_bounds _ _ _ _).1
  · rw [score_row_eq_core]
    exact (score_row_core_score_bounds _ _ _ _).2

/-- Claim C6: the recommendation builder returns the full scored set (a
permutation of one record per crop row of the table or fallback — no
truncation), sorted by final suitability score descending, stably (any
sorted sublist of the scored sequence, in particular any run of ties in
table order, survives as a sublist of the output, with no other tie-break),
and every returned score lies within [0, 5]. -/
theorem claim_C6 (db : List Row) (env : Env) :
    (build_recommendations db env).Perm
      ((if db.isEmpty then fallback_rows else db).map (fun r => score_row r env)) ∧
    (build_recommendations db env).length =
      (if db.isEmpty then fallback_rows else db).length ∧
    (build_recommendations db env).Pairwise
      (fun a b => b.suitability_score ≤ a.suitability_score) ∧
    (∀ c : List ScoredRec,
      c.Pairwise (fun a b => b.suitability_score ≤ a.suitability_score) →
      List.Sublist c
        ((if db.isEmpty then fallback_rows else db).map (fun r => score_row r env)) →
      List.Sublist c (build_recommendations db env)) ∧
    (∀ rec ∈ build_recommendations db env,
      0 ≤ rec.suitability_score ∧ rec.suitability_score ≤ 5) := by
  refine ⟨build_recommendations_perm db env, ?_, build_recommendations_sorted db env,
    fun c hc hsub => build_recommendations_stable db env hc hsub,
    fun rec h => build_recommendations_mem_bounds db env h⟩
  rw [(build_recommendations_perm db env).length_eq, List.length_map]

/-- Witness for C6 on the fallback table and a concrete profile. -/
theorem claim_C6_witness :
    (build_recommendations [] sample_env).length = 5 ∧
    List.Sublist [] (build_recommendations [] sample_env) ∧
    (∃ h : build_recommendations [] sample_env ≠ [],
      0 ≤ ((build_recommendations [] sample_env).head h).suitability_score ∧
        ((build_recommendations [] sample_env).head h).suitability_score ≤ 5) := by
  have h6 := claim_C6 [] sample_env
  have hlen : (build_recommendations [] sample_env).length = 5 := by
    rw [h6.2.1]
    rfl
  have hne : build_recommendations [] sample_env ≠ [] := by
    intro h
    rw [h] at hlen
    exact absurd hlen (by decide)
  exact ⟨hlen, h6.2.2.2.1 [] List.Pairwise.nil (List.nil_sublist _),
    ⟨hne, h6.2.2.2.2 _ (List.head_mem hne)⟩⟩

theorem mock_env_soil_mem (d : Option String) :
    (mock_env_from_polygon d).soil_type ∈
      (["ดินร่วน", "ดินร่วนปนทราย", "ดินเหนียว", "ดินทราย"] : List String) := by
  unfold mock_env_from_polygon pyChoice Rng.fromSeed Rng.next
  dsimp only
  exact getD_mem_of_lt _ (Nat.mod_lt _ (by norm_num))

theorem mock_env_rain_bounds (d : Option String) :
    900 ≤ (mock_env_from_polygon d).avg_rainfall_mm ∧
      (mock_env_from_polygon d).avg_rainfall_mm < 2500 := by
  have hb := unitQ_bounds (mtMix (pyHash (d.getD "") % 4294967296) 1)
  have he : (mock_env_from_polygon d).avg_rainfall_mm =
      900 + unitQ (mtMix (pyHash (d.getD "") % 4294967296) 1) * 1600 := rfl
  rw [he]
  constructor <;> nlinarith [hb.1, hb.2]

theorem mock_env_temp_bounds (d : Option String) :
    22 ≤ (mock_env_from_polygon d).avg_temp_celsius ∧
      (mock_env_from_polygon d).avg_temp_celsius < 34 := by
  have hb := unitQ_bounds (mtMix (pyHash (d.getD "") % 4294967296) 2)
  have he : (mock_env_from_polygon d).avg_temp_celsius =
      22 + unitQ (mtMix (pyHash (d.getD "") % 4294967296) 2) * 12 := rfl
  rw [he]
  constructor <;> nlinarith [hb.1, hb.2]

theorem mock_env_slope_bounds (d : Option String) :
    0 ≤ (mock_env_from_polygon d).slope_degree ∧
      (mock_env_from_polygon d).slope_degree < 15 := by
  have hb := unitQ_bounds (mtMix (pyHash (d.getD "") % 4294967296) 3)
  have he : (mock_env_from_polygon d).slope_degree =
      unitQ (mtMix (pyHash (d.getD "") % 4294967296) 3) * 15 := rfl
  rw [he]
  constructor <;> nlinarith [hb.1, hb.2]

/-- Claim C7: no core error is fatal — a missing or unreadable crop table
loads as the empty table, the builder then substitutes the fixed fallback set
and still returns a non-empty ranked result, and the simulator recovers any
descriptor (absent coalesces to the empty string and an arbitrary, possibly
malformed, descriptor still yields a profile within the documented ranges). -/
theorem claim_C7 (env : Env) (d : Option String) :
    (build_recommendations (_load_crop_database none) env).length = 5 ∧
    0 < (build_recommendations (_load_crop_database none) env).length ∧
    mock_env_from_polygon none = mock_env_from_polygon (some "") ∧
    (mock_env_from_polygon d).soil_type ∈
      (["ดินร่วน", "ดินร่วนปนทราย", "ดินเหนียว", "ดินทราย"] : List String) ∧
    900 ≤ (mock_env_from_polygon d).avg_rainfall_mm ∧
    (mock_env_from_polygon d).avg_rainfall_mm < 2500 ∧
    22 ≤ (mock_env_from_polygon d).avg_temp_celsius ∧
    (mock_env_from_polygon d).avg_temp_celsius < 34 ∧
    0 ≤ (mock_env_from_polygon d).slope_degree ∧
    (mock_env_from_polygon d).slope_degree < 15 := by
  have hlen : (build_recommendations (_load_crop_database none) env).length = 5 := by
    rw [(build_recommendations_perm (_load_crop_database none) env).length_eq,
      List.length_map]
    rfl
  exact ⟨hlen, by rw [hlen]; norm_num, rfl, mock_env_soil_mem d, (mock_env_rain_bounds d).1,
    (mock_env_rain_bounds d).2, (mock_env_temp_bounds d).1, (mock_env_temp_bounds d).2,
    (mock_env_slope_bounds d).1, (mock_env_slope_bounds d).2⟩

/-- Counterexample for C8 as stated: the built-in fallback crop set hard-coded
in `build_recommendations` has five rows, not the three the claim (following
the spec) attributes to it. -/
theorem counterexample_C8 : fallback_rows.length = 5 ∧ ¬fallback_rows.length = 3 := by
  constructor
  · rfl
  · decide

/-- Claim C8 (amended: the built-in fallback set has 5 crops, not 3): rice is
the first fallback row, its wanted rainfall window is 1200–2000 mm, and for
any two environment profiles agreeing on soil, temperature and slope whose
rainfall is respectively inside and outside [1200, 2000], rice's base scores
differ by exactly the rainfall weight 2. -/
theorem claim_C8 (env₁ env₂ : Env)
    (hs : env₁.soil_type = env₂.soil_type)
    (ht : env₁.avg_temp_celsius = env₂.avg_temp_celsius)
    (hsl : env₁.slope_degree = env₂.slope_degree)
    (hin1 : 1200 ≤ env₁.avg_rainfall_mm) (hin2 : env₁.avg_rainfall_mm ≤ 2000)
    (hout : ¬(1200 ≤ env₂.avg_rainfall_mm ∧ env₂.avg_rainfall_mm ≤ 2000)) :
    (fallback_rows.getD 0 {}).crop_name = some "ข้าว" ∧
    (fallback_rows.getD 0 {}).min_rain_mm = some 1200 ∧
    (fallback_rows.getD 0 {}).max_rain_mm = some 2000 ∧
    (_deterministic_score (fallback_rows.getD 0 {}) env₁).1 =
      (_deterministic_score (fallback_rows.getD 0 {}) env₂).1 + 2 := by
  refine ⟨rfl, rfl, rfl, ?_⟩
  have hrain1 : (rain_check (fallback_rows.getD 0 {}) env₁).1 = 2 := by
    simp [rain_check, fallback_rows, truthyQ, hin1, hin2]
  have hrain2 : (rain_check (fallback_rows.getD 0 {}) env₂).1 = 0 := by
    simp [rain_check, fallback_rows, truthyQ, hout]
  have hsoil : (soil_check (fallback_rows.getD 0 {}) env₁).1 =
      (soil_check (fallback_rows.getD 0 {}) env₂).1 := by
    simp only [soil_check, fallback_rows, truthyStr]
    rw [hs]
  have htemp : (temp_check (fallback_rows.getD 0 {}) env₁).1 =
      (temp_check (fallback_rows.getD 0 {}) env₂).1 := by
    simp only [temp_check, fallback_rows, truthyQ]
    rw [ht]
  have hslope : (slope_check (fallback_rows.getD 0 {}) env₁).1 =
      (slope_check (fallback_rows.getD 0 {}) env₂).1 := by
    simp only [slope_check, fallback_rows, truthyQ]
    rw [hsl]
  rw [deterministic_score_eq, deterministic_score_eq]
  dsimp only
  omega

/-- Witness for C8 at two concrete profiles differing only in rainfall. -/
theorem claim_C8_witness :
    (_deterministic_score (fallback_rows.getD 0 {}) sample_env).1 =
      (_deterministic_score (fallback_rows.getD 0 {}) sample_env_dry).1 + 2 :=
  (claim_C8 sample_env sample_env_dry rfl rfl rfl
    (by norm_num [sample_env]) (by norm_num [sample_env])
    (by norm_num [sample_env_dry])).2.2.2

/-- Claim C9: requirement values that are present but Python-falsy or
half-specified are treated exactly as if absent: a zero numeric bound (zero
slope limit, zero minimum temperature), an empty-string soil requirement, and
a rainfall or temperature range missing one of its two bounds all auto-pass
with full weight and no reason. -/
theorem claim_C9 (row : Row) (env : Env) :
    (row.slope_max_deg = some 0 →
      _deterministic_score row env =
        _deterministic_score { row with slope_max_deg := none } env) ∧
    (row.min_temp_c = some 0 →
      _deterministic_score row env =
        _deterministic_score { row with min_temp_c := none } env) ∧
    (row.soil_type = some "" →
      _deterministic_score row env =
        _deterministic_score { row with soil_type := none } env) ∧
    (row.max_rain_mm = none → row.max_rain_th = none →
      rain_check row env = (2, [])) ∧
    (row.min_temp_c = none → row.min_temp_th = none →
      temp_check row env = (1, [])) := by
  refine ⟨?_, ?_, ?_, ?_, ?_⟩
  · intro h
    simp [deterministic_score_eq, soil_check, rain_check, temp_check, slope_check,
      truthyQ, truthyStr, h]
  · intro h
    simp [deterministic_score_eq, soil_check, rain_check, temp_check, slope_check,
      truthyQ, truthyStr, h]
  · intro h
    simp [deterministic_score_eq, soil_check, rain_check, temp_check, slope_check,
      truthyQ, truthyStr, h]
  · intro h1 h2
    have hmax : (truthyQ row.max_rain_mm).or (truthyQ row.max_rain_th) = none := by
      simp [truthyQ, h1, h2]
    unfold rain_check
    dsimp only
    rw [hmax]
    cases (truthyQ row.min_rain_mm).or (truthyQ row.min_rain_th) <;> rfl
  · intro h1 h2
    have hmin : (truthyQ row.min_temp_c).or (truthyQ row.min_temp_th) = none := by
      simp [truthyQ, h1, h2]
    unfold temp_check
    dsimp only
    rw [hmin]

/-- Witness for C9 at a row with falsy fields and at the empty row. -/
theorem claim_C9_witness :
    _deterministic_score sample_row_falsy sample_env =
      _deterministic_score { sample_row_falsy with slope_max_deg := none } sample_env ∧
    _deterministic_score sample_row_falsy sample_env =
      _deterministic_score { sample_row_falsy with min_temp_c := none } sample_env ∧
    _deterministic_score sample_row_falsy sample_env =
      _deterministic_score { sample_row_falsy with soil_type := none } sample_env ∧
    rain_check {} sample_env = (2, []) ∧
    temp_check {} sample_env = (1, []) :=
  ⟨(claim_C9 sample_row_falsy sample_env).1 rfl,
   (claim_C9 sample_row_falsy sample_env).2.1 rfl,
   (claim_C9 sample_row_falsy sample_env).2.2.1 rfl,
   (claim_C9 {} sample_env).2.2.2.1 rfl rfl,
   (claim_C9 {} sample_env).2.2.2.2 rfl rfl⟩

/-- Claim C10: when the reasons list is empty the base score is 5, the jitter
candidate list is [3, 4, 5, 5], the final displayed score is at least 3 for
every draw stream, and the low-score advice band (which concatenates failure
reasons) is never selected. -/
theorem claim_C10 (row : Row) (env : Env) (name : String) (rng : Rng)
    (h : (_deterministic_score row env).2 = []) :
    (_deterministic_score row env).1 = 5 ∧
    [max 0 (((_deterministic_score row env).1 : ℤ) - 2),
     max 0 (((_deterministic_score row env).1 : ℤ) - 1),
     ((_deterministic_score row env).1 : ℤ),
     min 5 (((_deterministic_score row env).1 : ℤ) + 1)] = [3, 4, 5, 5] ∧
    3 ≤ (score_row_core row env name rng).suitability_score ∧
    ∀ p f i, (score_row_core row env name rng).advice ≠ Advice.band_low p f i := by
  have h5 : (_deterministic_score row env).1 = 5 := (reasons_nil_iff row env).mp h
  have hc : [max 0 (((_deterministic_score row env).1 : ℤ) - 2),
      max 0 (((_deterministic_score row env).1 : ℤ) - 1),
      ((_deterministic_score row env).1 : ℤ),
      min 5 (((_deterministic_score row env).1 : ℤ) + 1)] = ([3, 4, 5, 5] : List ℤ) := by
    rw [h5]
    decide
  have hmem := score_row_core_score_mem row env name rng
  rw [hc] at hmem
  have h3 : 3 ≤ (score_row_core row env name rng).suitability_score := by
    simp only [List.mem_cons, List.not_mem_nil, or_false] at hmem
    rcases hmem with h' | h' | h' | h' <;> omega
  refine ⟨h5, hc, h3, ?_⟩
  intro p f i
  obtain ⟨rng2, hadv⟩ := score_row_core_advice row env name rng
  rw [hadv]
  exact gen_advice_not_low _ _ _ h3 p f i

/-- Witness for C10 at the all-passing empty row and a concrete profile. -/
theorem claim_C10_witness :
    (_deterministic_score ({} : Row) sample_env).2 = [] ∧
    3 ≤ (score_row_core {} sample_env "Unknown Crop" sample_rng).suitability_score :=
  ⟨rfl, (claim_C10 {} sample_env "Unknown Crop" sample_rng rfl).2.2.1⟩

end HarvestDawn
